import Mathlib

/-!
Verification of the Caltrain Quick schedule data model and query engine.

The definitions below are shallow embeddings of the pure functions of the
repository: the departure-query helpers extracted for testing
(`formatTime`, `getCurrentMinutes`, `getServiceType`,
`filterTrainsByDestination` in `tests.js`) and the feed-compaction steps of
`process-gtfs.js` (service classification, holiday compaction, bucket
sort/dedupe, tuple encoding).  Machine numbers in the source are plain
JavaScript integers in the ranges used, so they are modelled as `Nat`
(timestamps, minutes) and `Int` (timezone offsets, day-of-week arithmetic).
-/

namespace CaltrainQuick

/-- A departure tuple `[minute, trainNumber, routeType, serviceType]` as stored
in the compacted snapshot and consumed by the query engine. -/
structure Dep where
  t : Nat
  n : String
  r : Nat
  s : Nat
deriving DecidableEq, Repr

/-- `String.padStart(2, '0')` applied to the decimal rendering of a minute
count, as used by `formatTime`. -/
def pad2 (m : Nat) : String :=
  if m < 10 then "0" ++ toString m else toString m

/-- `formatTime` from `tests.js`: minutes-since-midnight to a 12-hour clock
string; hours wrap modulo 24 for times past midnight, `h % 12 || 12` maps
hour 0 and 12 to `12`. -/
def formatTime (minutes : Nat) : String :=
  let h := minutes / 60 % 24
  let m := minutes % 60
  let ampm := if 12 ≤ h then "pm" else "am"
  let h2 := if h % 12 = 0 then 12 else h % 12
  toString h2 ++ ":" ++ pad2 m ++ ampm

/-- `getCurrentMinutes` from `tests.js` with both overrides supplied:
minutes since midnight, plus 1440 when before 3am so late-night times
compare directly against stored service-day minutes. -/
def getCurrentMinutes (hours mins : Nat) : Nat :=
  let totalMins := hours * 60 + mins
  if totalMins < 180 then totalMins + 24 * 60 else totalMins

end CaltrainQuick

namespace CaltrainQuick

theorem pad2_length_of_lt_sixty : ∀ m, m < 60 → (pad2 m).length = 2 := by decide

end CaltrainQuick

/-- C6: `formatTime` is a total function on `Nat`, periodic modulo 1440
(`formatTime (m+1440) = formatTime m` for all `m`), renders any minute whose
display hour is 0 as `12:MMam` and display hour 12 as `12:MMpm` with the
minutes zero-padded to two digits, and takes the literal values
`formatTime 0 = "12:00am"`, `formatTime 720 = "12:00pm"`,
`formatTime 945 = "3:45pm"`, `formatTime 1454 = "12:14am"`,
`formatTime 1530 = "1:30am"`. -/
theorem claim_C6 :
    (∀ m, CaltrainQuick.formatTime (m + 1440) = CaltrainQuick.formatTime m) ∧
    (∀ j k, CaltrainQuick.formatTime (1440 * j + k % 60) =
      "12:" ++ CaltrainQuick.pad2 (k % 60) ++ "am") ∧
    (∀ j k, CaltrainQuick.formatTime (1440 * j + 720 + k % 60) =
      "12:" ++ CaltrainQuick.pad2 (k % 60) ++ "pm") ∧
    (∀ k, (CaltrainQuick.pad2 (k % 60)).length = 2) ∧
    CaltrainQuick.formatTime 0 = "12:00am" ∧
    CaltrainQuick.formatTime 720 = "12:00pm" ∧
    CaltrainQuick.formatTime 945 = "3:45pm" ∧
    CaltrainQuick.formatTime 1454 = "12:14am" ∧
    CaltrainQuick.formatTime 1530 = "1:30am" := by
  refine ⟨?_, ?_, ?_, ?_, by decide, by decide, by decide, by decide, by decide⟩
  · intro m
    have h1 : (m + 1440) / 60 % 24 = m / 60 % 24 := by omega
    have h2 : (m + 1440) % 60 = m % 60 := by omega
    simp only [CaltrainQuick.formatTime, h1, h2]
  · intro j k
    have h1 : (1440 * j + k % 60) / 60 % 24 = 0 := by omega
    have h2 : (1440 * j + k % 60) % 60 = k % 60 := by omega
    simp only [CaltrainQuick.formatTime, h1, h2]
    norm_num
    rw [show (toString (12 : Nat) ++ ":" : String) = "12:" from by decide]
  · intro j k
    have h1 : (1440 * j + 720 + k % 60) / 60 % 24 = 12 := by omega
    have h2 : (1440 * j + 720 + k % 60) % 60 = k % 60 := by omega
    simp only [CaltrainQuick.formatTime, h1, h2]
    norm_num
    rw [show (toString (12 : Nat) ++ ":" : String) = "12:" from by decide]
  · intro k
    exact CaltrainQuick.pad2_length_of_lt_sixty _ (Nat.mod_lt _ (by norm_num))

/-- C7: `getCurrentMinutes` equals `h*60+m` for local hours at or after 3 and
`h*60+m+1440` before 3, for every in-range hour and minute, with the literal
values 10:30 ↦ 630, 23:56 ↦ 1436, 00:04 ↦ 1444, 02:59 ↦ 1619, 03:00 ↦ 180. -/
theorem claim_C7 :
    (∀ h m, h < 24 → m < 60 →
      CaltrainQuick.getCurrentMinutes h m =
        if 3 ≤ h then h * 60 + m else h * 60 + m + 1440) ∧
    CaltrainQuick.getCurrentMinutes 10 30 = 630 ∧
    CaltrainQuick.getCurrentMinutes 23 56 = 1436 ∧
    CaltrainQuick.getCurrentMinutes 0 4 = 1444 ∧
    CaltrainQuick.getCurrentMinutes 2 59 = 1619 ∧
    CaltrainQuick.getCurrentMinutes 3 0 = 180 := by
  refine ⟨?_, by decide, by decide, by decide, by decide, by decide⟩
  intro h m hh hm
  simp only [CaltrainQuick.getCurrentMinutes]
  split <;> split <;> omega

/-- Witness for C7 at the concrete input 02:59. -/
theorem claim_C7_witness :
    CaltrainQuick.getCurrentMinutes 2 59 =
      if 3 ≤ 2 then 2 * 60 + 59 else 2 * 60 + 59 + 1440 :=
  claim_C7.1 2 59 (by decide) (by decide)

/-- C9 (implicit): for every in-range hour and minute, `getCurrentMinutes`
returns a value in `[180, 1619]`, so the "now" cursor never precedes the
3:00 AM service-day start. -/
theorem claim_C9 :
    ∀ h m, h < 24 → m < 60 →
      180 ≤ CaltrainQuick.getCurrentMinutes h m ∧
      CaltrainQuick.getCurrentMinutes h m ≤ 1619 := by
  intro h m hh hm
  simp only [CaltrainQuick.getCurrentMinutes]
  split <;> omega

/-- Witness for C9 at the concrete input 00:00. -/
theorem claim_C9_witness :
    180 ≤ CaltrainQuick.getCurrentMinutes 0 0 ∧
    CaltrainQuick.getCurrentMinutes 0 0 ≤ 1619 :=
  claim_C9 0 0 (by decide) (by decide)

namespace CaltrainQuick

/-- The set of train numbers stopping at the destination under the requested
service filter (`destTrainNums` inside `filterTrainsByDestination`). -/
def destTrainNums (destTrains : List Dep) (serviceFilter : Nat) : List String :=
  (destTrains.filter (fun t => decide (t.s = serviceFilter))).map (fun t => t.n)

/-- `filterTrainsByDestination` from `tests.js`: keep origin departures whose
service type matches, whose minute is between `currentMinutes` and the
end-of-day horizon `24*60+120`, and whose train number stops at the
destination under the same service filter. -/
def filterTrainsByDestination (originTrains destTrains : List Dep)
    (serviceFilter currentMinutes : Nat) : List Dep :=
  originTrains.filter (fun t => decide (t.s = serviceFilter ∧
    currentMinutes ≤ t.t ∧ t.t ≤ 24 * 60 + 120 ∧
    t.n ∈ destTrainNums destTrains serviceFilter))

/-- The fixed sample origin departures of `tests.js` / spec §8. -/
def sampleOriginTrains : List Dep :=
  [⟨310, "101", 0, 0⟩, ⟨344, "102", 0, 0⟩, ⟨400, "201", 0, 1⟩,
   ⟨450, "202", 0, 1⟩, ⟨500, "M101", 0, 2⟩, ⟨1454, "664", 0, 1⟩]

/-- The fixed sample destination departures of `tests.js` / spec §8. -/
def sampleDestTrains : List Dep :=
  [⟨330, "101", 0, 0⟩, ⟨420, "201", 0, 1⟩, ⟨520, "M101", 0, 2⟩,
   ⟨1474, "664", 0, 1⟩]

/-- Ordering of departures by minute, the comparator `(a, b) => a.t - b.t`
used on schedule buckets. -/
def depLE (a b : Dep) : Prop := a.t ≤ b.t

instance : DecidableRel depLE := fun a b => inferInstanceAs (Decidable (a.t ≤ b.t))

instance : IsTotal Dep depLE := ⟨fun a b => Nat.le_total a.t b.t⟩

instance : IsTrans Dep depLE := ⟨fun _ _ _ => Nat.le_trans⟩

end CaltrainQuick

/-- C1: for every origin bucket, destination bucket, service type and
`nowMinutes`, `filterTrainsByDestination` returns — in ascending minute
order, given that the origin bucket is minute-sorted as snapshot buckets
are — exactly the origin departures with matching service type, minute in
`[nowMinutes, 1560]`, and train number appearing under the same service
type in the destination bucket; on the §8 sample data the four queries
return ['101'], ['201','664'], ['M101'] and ['664'] respectively. -/
theorem claim_C1 :
    (∀ (origin dest : List CaltrainQuick.Dep) (f now : Nat),
        List.Sorted CaltrainQuick.depLE origin →
        List.Sorted CaltrainQuick.depLE
            (CaltrainQuick.filterTrainsByDestination origin dest f now) ∧
        ∀ d, d ∈ CaltrainQuick.filterTrainsByDestination origin dest f now ↔
            (d ∈ origin ∧ d.s = f ∧ now ≤ d.t ∧ d.t ≤ 1560 ∧
              ∃ e ∈ dest, e.s = f ∧ e.n = d.n)) ∧
    (CaltrainQuick.filterTrainsByDestination CaltrainQuick.sampleOriginTrains
        CaltrainQuick.sampleDestTrains 0 300).map CaltrainQuick.Dep.n = ["101"] ∧
    (CaltrainQuick.filterTrainsByDestination CaltrainQuick.sampleOriginTrains
        CaltrainQuick.sampleDestTrains 1 300).map CaltrainQuick.Dep.n = ["201", "664"] ∧
    (CaltrainQuick.filterTrainsByDestination CaltrainQuick.sampleOriginTrains
        CaltrainQuick.sampleDestTrains 2 300).map CaltrainQuick.Dep.n = ["M101"] ∧
    (CaltrainQuick.filterTrainsByDestination CaltrainQuick.sampleOriginTrains
        CaltrainQuick.sampleDestTrains 1 410).map CaltrainQuick.Dep.n = ["664"] := by
  refine ⟨?_, by decide, by decide, by decide, by decide⟩
  intro origin dest f now hs
  constructor
  · exact hs.sublist (List.filter_sublist _)
  · intro d
    simp only [CaltrainQuick.filterTrainsByDestination, CaltrainQuick.destTrainNums,
      List.mem_filter, decide_eq_true_iff, List.mem_map]
    norm_num
    tauto

/-- Witness for C1: the sorted-output conclusion at the §8 sample data. -/
theorem claim_C1_witness :
    List.Sorted CaltrainQuick.depLE
      (CaltrainQuick.filterTrainsByDestination CaltrainQuick.sampleOriginTrains
        CaltrainQuick.sampleDestTrains 1 300) :=
  (claim_C1.1 CaltrainQuick.sampleOriginTrains CaltrainQuick.sampleDestTrains 1 300
    (by decide)).1

/-- C10 (implicit): `filterTrainsByDestination` depends on the destination
list only through the set of train numbers carrying the filtered service
type — two destination lists inducing the same set give identical results
for every origin list, filter and now — and its result is always a
subsequence of the origin list. -/
theorem claim_C10 :
    (∀ (origin d1 d2 : List CaltrainQuick.Dep) (f now : Nat),
        (∀ s : String, s ∈ CaltrainQuick.destTrainNums d1 f ↔
            s ∈ CaltrainQuick.destTrainNums d2 f) →
        CaltrainQuick.filterTrainsByDestination origin d1 f now =
          CaltrainQuick.filterTrainsByDestination origin d2 f now) ∧
    (∀ (origin dest : List CaltrainQuick.Dep) (f now : Nat),
        (CaltrainQuick.filterTrainsByDestination origin dest f now).Sublist origin) := by
  constructor
  · intro origin d1 d2 f now hset
    unfold CaltrainQuick.filterTrainsByDestination
    apply List.filter_congr
    intro x _
    rw [decide_eq_decide]
    exact and_congr_right fun _ => and_congr_right fun _ =>
      and_congr_right fun _ => hset x.n
  · intro origin dest f now
    exact List.filter_sublist _

/-- Witness for C10: two destination lists with the same weekday train-number
set (differing in minutes, route types, order and duplication) give the same
result on the sample origin list. -/
theorem claim_C10_witness :
    CaltrainQuick.filterTrainsByDestination CaltrainQuick.sampleOriginTrains
      [⟨330, "101", 0, 0⟩] 0 300 =
    CaltrainQuick.filterTrainsByDestination CaltrainQuick.sampleOriginTrains
      [⟨999, "101", 3, 0⟩, ⟨5, "101", 0, 0⟩, ⟨40, "777", 2, 1⟩] 0 300 :=
  claim_C10.1 CaltrainQuick.sampleOriginTrains [⟨330, "101", 0, 0⟩]
    [⟨999, "101", 3, 0⟩, ⟨5, "101", 0, 0⟩, ⟨40, "777", 2, 1⟩] 0 300
    (by intro s; simp [CaltrainQuick.destTrainNums])

namespace CaltrainQuick

/-- Days-since-epoch to a civil `(year, month, day)` triple, the date
arithmetic behind `Date.prototype.toISOString` for the post-1970 range the
schedule lives in. -/
def civilFromDays (z : Nat) : Nat × Nat × Nat :=
  let z2 := z + 719468
  let era := z2 / 146097
  let doe := z2 % 146097
  let yoe := (doe - doe / 1460 + doe / 36524 - doe / 146096) / 365
  let y := yoe + era * 400
  let doy := doe - (365 * yoe + yoe / 4 - yoe / 100)
  let mp := (5 * doy + 2) / 153
  let d := doy - (153 * mp + 2) / 5 + 1
  let m := if mp < 10 then mp + 3 else mp - 9
  (if m ≤ 2 then y + 1 else y, m, d)

/-- The `YYYYMMDD` string that slicing the first ten characters of
`toISOString()` and dropping the dashes produces for a UTC day number. -/
def dateStrOfDay (z : Nat) : String :=
  let c := civilFromDays z
  toString c.1 ++ pad2 c.2.1 ++ pad2 c.2.2

/-- Local-clock minutes of a UTC timestamp `t` (minutes since epoch) under a
fixed UTC offset `tz` in minutes (Pacific standard time is `-480`). -/
def localMin (t : Nat) (tz : Int) : Int := (t : Int) + tz

/-- `Date.prototype.getHours`: the local hour of the timestamp. -/
def getHours (t : Nat) (tz : Int) : Nat :=
  ((localMin t tz).emod 1440).toNat / 60

/-- `Date.prototype.getDay`: local day of week, Sunday = 0 (the Unix epoch
fell on a Thursday, day 4). -/
def getDay (t : Nat) (tz : Int) : Int :=
  ((localMin t tz).ediv 1440 + 4).emod 7

/-- `getServiceType` from `tests.js`: shift timestamps before 3am local back
by 24 hours, look the `toISOString`-derived (UTC) date string up in the
holiday map (2 ↦ modified, 1 ↦ weekend), else classify by local day of
week.  `t` is in minutes since epoch, `tz` the local UTC offset in minutes,
`holidays` the date-string keyed override map. -/
def getServiceType (t : Nat) (tz : Int) (holidays : List (String × Nat)) :
    String :=
  let t2 := if getHours t tz < 3 then t - 1440 else t
  let dateStr := dateStrOfDay (t2 / 1440)
  let day := getDay t2 tz
  match holidays.lookup dateStr with
  | some 2 => "modified"
  | some 1 => "weekend"
  | _ => if day = 0 ∨ day = 6 then "weekend" else "weekday"

/-- The holiday overrides used by the repository's own tests: Christmas Eve
2025 modified, Christmas 2025 weekend. -/
def xmasHolidays : List (String × Nat) := [("20251224", 2), ("20251225", 1)]

/-- Local Pacific time 2025-12-24 20:00 (UTC 2025-12-25 04:00): day number
20447 is 2025-12-25, so the timestamp is `20447 * 1440 + 240` minutes. -/
def xmasEveEvening : Nat := 20447 * 1440 + 240

end CaltrainQuick

/-- C4 (code bug): at local Pacific time 2025-12-24 20:00 — local hour 20, a
Wednesday, with Christmas Eve mapped to the modified override 2 — the claim
classifies the current local calendar date 20251224 and yields "modified",
but `getServiceType` builds its lookup key from the UTC date (via
`toISOString`), looks up 20251225 instead, and returns "weekend". -/
theorem claim_C4 :
    CaltrainQuick.getHours CaltrainQuick.xmasEveEvening (-480) = 20 ∧
    CaltrainQuick.getDay CaltrainQuick.xmasEveEvening (-480) = 3 ∧
    CaltrainQuick.dateStrOfDay
      ((CaltrainQuick.localMin CaltrainQuick.xmasEveEvening (-480)).ediv 1440).toNat
      = "20251224" ∧
    CaltrainQuick.getServiceType CaltrainQuick.xmasEveEvening (-480)
      CaltrainQuick.xmasHolidays = "weekend" ∧
    CaltrainQuick.getServiceType CaltrainQuick.xmasEveEvening (-480)
      CaltrainQuick.xmasHolidays ≠ "modified" := by
  refine ⟨by decide, by decide, by decide, by decide, ?_⟩
  intro h
  simp only [CaltrainQuick.getServiceType] at h
  revert h
  decide

namespace CaltrainQuick

/-- One calendar-table record as kept by the Compactor's `services` map:
`weekday` is the Monday flag, `weekend` the Saturday flag. -/
structure ServiceCal where
  weekday : Bool
  weekend : Bool
deriving DecidableEq, Repr

/-- The Compactor's service classification
`service?.weekday ? 'weekday' : (service?.weekend ? 'weekend' : 'holiday')`
from `process-gtfs.js`, including the optional-chaining fallthrough when the
trip's service identifier is absent from the calendar map. -/
def classifyService (services : List (String × ServiceCal))
    (serviceId : String) : String :=
  match services.lookup serviceId with
  | some sc =>
      if sc.weekday then "weekday"
      else if sc.weekend then "weekend" else "holiday"
  | none => "holiday"

/-- A pre-compaction schedule-bucket record
`{t: minutes, n: trainNum, r: routeName, s: serviceType, h: headsign}`
pushed by the `stopTimes.forEach` loop of `process-gtfs.js`. -/
structure SchedEntry where
  t : Nat
  n : String
  r : String
  s : String
  h : String
deriving DecidableEq, Repr

/-- `routeTypeMap[t.r] ?? 0` from `process-gtfs.js`. -/
def routeTypeMap (r : String) : Nat :=
  if r = "Local Weekday" then 0
  else if r = "Local Weekend" then 0
  else if r = "Local" then 0
  else if r = "Limited" then 1
  else if r = "Express" then 2
  else if r = "South County" then 3
  else 0

/-- The tuple encoding of `compactSchedule` in `process-gtfs.js`:
`[t.t, t.n, routeTypeMap[t.r] ?? 0, t.s === 'weekday' ? 0 : 1]`. -/
def compactEntry (e : SchedEntry) : Dep :=
  ⟨e.t, e.n, routeTypeMap e.r, if e.s = "weekday" then 0 else 1⟩

/-- `compactHolidays` from `process-gtfs.js`: each date whose exception
records (pairs of service identifier and `exception_type`) include a removal
(`type === 2`) is mapped to the boolean `true`; every other date is
omitted. -/
def compactHolidays (holidays : List (String × List (String × Nat))) :
    List (String × Bool) :=
  (holidays.filter (fun d => d.2.any (fun hx => hx.2 == 2))).map
    (fun d => (d.1, true))

/-- Ordering of pre-compaction entries by minute, the sort comparator
`(a, b) => a.t - b.t`. -/
def schedLE (a b : SchedEntry) : Prop := a.t ≤ b.t

instance : DecidableRel schedLE := fun a b => inferInstanceAs (Decidable (a.t ≤ b.t))

instance : IsTotal SchedEntry schedLE := ⟨fun a b => Nat.le_total a.t b.t⟩

instance : IsTrans SchedEntry schedLE := ⟨fun _ _ _ => Nat.le_trans⟩

/-- Two entries do not share both minute and train number. -/
def distinctDep (a b : SchedEntry) : Prop := ¬(a.t = b.t ∧ a.n = b.n)

/-- The dedupe filter of `process-gtfs.js`, which compares each element with
its predecessor in the sorted (pre-filter) array:
`idx === 0 || item.t !== arr[idx-1].t || item.n !== arr[idx-1].n`. -/
def dedupeAux : SchedEntry → List SchedEntry → List SchedEntry
  | _, [] => []
  | prev, x :: xs =>
      if x.t = prev.t ∧ x.n = prev.n then dedupeAux x xs
      else x :: dedupeAux x xs

/-- Entry point of the dedupe filter: the first element is always kept. -/
def dedupe : List SchedEntry → List SchedEntry
  | [] => []
  | x :: xs => x :: dedupeAux x xs

/-- The per-bucket normalization of `process-gtfs.js`: stable sort ascending
by minute, then drop entries equal to their predecessor in minute and train
number. -/
def sortDedupe (l : List SchedEntry) : List SchedEntry :=
  dedupe (List.insertionSort schedLE l)

end CaltrainQuick

namespace CaltrainQuick

theorem dedupeAux_sublist :
    ∀ (xs : List SchedEntry) (prev), (dedupeAux prev xs).Sublist xs := by
  intro xs
  induction xs with
  | nil => intro prev; simp [dedupeAux]
  | cons x xs ih =>
      intro prev
      simp only [dedupeAux]
      split
      · exact (ih x).trans (List.sublist_cons_self x xs)
      · exact (ih x).cons₂ x

theorem dedupe_sublist : ∀ l : List SchedEntry, (dedupe l).Sublist l
  | [] => List.Sublist.refl _
  | x :: xs => (dedupeAux_sublist xs x).cons₂ x

theorem chain_dedupeAux :
    ∀ (xs : List SchedEntry) (prev),
      List.Chain distinctDep prev (dedupeAux prev xs) := by
  intro xs
  induction xs with
  | nil => intro prev; exact List.Chain.nil
  | cons x xs ih =>
      intro prev
      simp only [dedupeAux]
      split
      · rename_i hd
        have h2 := ih x
        cases hys : dedupeAux x xs with
        | nil => exact List.Chain.nil
        | cons y ys =>
            rw [hys] at h2
            rcases List.chain_cons.mp h2 with ⟨hxy, hchain⟩
            exact List.chain_cons.mpr
              ⟨fun hc => hxy ⟨hd.1.trans hc.1, hd.2.trans hc.2⟩, hchain⟩
      · rename_i hd
        exact List.chain_cons.mpr
          ⟨fun hc => hd ⟨hc.1.symm, hc.2.symm⟩, ih x⟩

theorem chain'_dedupe : ∀ l : List SchedEntry, List.Chain' distinctDep (dedupe l)
  | [] => trivial
  | x :: xs => chain_dedupeAux xs x

end CaltrainQuick

/-- C2 (code bug): the Compactor classifies a trip whose service identifier
is absent from the calendar map as "holiday", and the tuple encoding
`t.s === 'weekday' ? 0 : 1` then stores serviceType 1 — the Weekend code —
never the Modified code 2 the data model prescribes. -/
theorem claim_C2 :
    CaltrainQuick.classifyService
      [("caltrain-weekday", ⟨true, false⟩)] "caltrain-special" = "holiday" ∧
    (CaltrainQuick.compactEntry ⟨500, "M101", "Local",
        CaltrainQuick.classifyService
          [("caltrain-weekday", ⟨true, false⟩)] "caltrain-special",
        "Tamien"⟩).s = 1 ∧
    (CaltrainQuick.compactEntry ⟨500, "M101", "Local",
        CaltrainQuick.classifyService
          [("caltrain-weekday", ⟨true, false⟩)] "caltrain-special",
        "Tamien"⟩).s ≠ 2 := by
  refine ⟨by decide, by decide, by decide⟩

/-- C3 (code bug): `compactHolidays` maps a date with a removal exception
(`exception_type = 2`) to the boolean `true` — not to the numeric override 1
— and omits a date whose only exception adds a holiday-special service
(`exception_type = 1`) instead of mapping it to 2. -/
theorem claim_C3 :
    CaltrainQuick.compactHolidays
      [("20251225", [("caltrain-weekday", 2)]),
       ("20260119", [("caltrain-mlk-special", 1)])] =
      [("20251225", true)] := by
  decide

/-- C5 counterexample: three same-minute weekday entries A, B, A survive the
sort-and-dedupe pass unchanged, so the compacted bucket holds two
departures sharing both minute and train number, refuting the global
no-duplicate invariant. -/
theorem claim_C5_cex :
    ((CaltrainQuick.sortDedupe
        [⟨100, "A", "Local", "weekday", "SF"⟩, ⟨100, "B", "Local", "weekday", "SF"⟩,
         ⟨100, "A", "Local", "weekday", "SF"⟩]).map CaltrainQuick.compactEntry =
      [⟨100, "A", 0, 0⟩, ⟨100, "B", 0, 0⟩, ⟨100, "A", 0, 0⟩]) ∧
    ¬ List.Pairwise (fun a b : CaltrainQuick.Dep => ¬(a.t = b.t ∧ a.n = b.n))
        ((CaltrainQuick.sortDedupe
          [⟨100, "A", "Local", "weekday", "SF"⟩, ⟨100, "B", "Local", "weekday", "SF"⟩,
           ⟨100, "A", "Local", "weekday", "SF"⟩]).map CaltrainQuick.compactEntry) := by
  refine ⟨by decide, by decide⟩

/-- C5 amended: every compacted station/direction bucket is sorted ascending
by minute and no two ADJACENT departures share both minute and train number
(the dedupe compares each entry only with its immediate predecessor, so
equal-minute duplicates separated by another train may survive). -/
theorem claim_C5_amended :
    ∀ l : List CaltrainQuick.SchedEntry,
      List.Sorted CaltrainQuick.depLE
        ((CaltrainQuick.sortDedupe l).map CaltrainQuick.compactEntry) ∧
      List.Chain' (fun a b : CaltrainQuick.Dep => ¬(a.t = b.t ∧ a.n = b.n))
        ((CaltrainQuick.sortDedupe l).map CaltrainQuick.compactEntry) := by
  intro l
  have hsub := CaltrainQuick.dedupe_sublist (List.insertionSort CaltrainQuick.schedLE l)
  constructor
  · have h1 : List.Pairwise CaltrainQuick.schedLE (CaltrainQuick.sortDedupe l) :=
      (List.sorted_insertionSort CaltrainQuick.schedLE l).sublist hsub
    exact List.pairwise_map.mpr (h1.imp (fun h => h))
  · have h2 := CaltrainQuick.chain'_dedupe (List.insertionSort CaltrainQuick.schedLE l)
    exact (List.chain'_map CaltrainQuick.compactEntry).mpr (h2.imp (fun a b h => h))

/-- C8 counterexample: a calendar service with both the Monday and the
Saturday flag set is classified "weekday", not "weekend" — the weekday
check comes first in the Compactor. -/
theorem claim_C8_cex :
    CaltrainQuick.classifyService [("both-days", ⟨true, true⟩)] "both-days" =
      "weekday" ∧
    CaltrainQuick.classifyService [("both-days", ⟨true, true⟩)] "both-days" ≠
      "weekend" := by
  refine ⟨by decide, by decide⟩

/-- C8 amended: a service whose Monday flag is set is classified weekday-type
regardless of its other flags; otherwise the Saturday flag yields
weekend-type; a service absent from the calendar map is classified
"holiday" (Modified); consequently a service with both the Monday and
Saturday flags is treated as weekday-type. -/
theorem claim_C8_amended :
    (∀ (services : List (String × CaltrainQuick.ServiceCal)) (id : String)
        (sc : CaltrainQuick.ServiceCal),
        services.lookup id = some sc → sc.weekday = true →
        CaltrainQuick.classifyService services id = "weekday") ∧
    (∀ (services : List (String × CaltrainQuick.ServiceCal)) (id : String)
        (sc : CaltrainQuick.ServiceCal),
        services.lookup id = some sc → sc.weekday = false → sc.weekend = true →
        CaltrainQuick.classifyService services id = "weekend") ∧
    (∀ (services : List (String × CaltrainQuick.ServiceCal)) (id : String),
        services.lookup id = none →
        CaltrainQuick.classifyService services id = "holiday") := by
  refine ⟨?_, ?_, ?_⟩
  · intro services id sc hl hwd
    simp [CaltrainQuick.classifyService, hl, hwd]
  · intro services id sc hl hwd hwe
    simp [CaltrainQuick.classifyService, hl, hwd, hwe]
  · intro services id hl
    simp [CaltrainQuick.classifyService, hl]

/-- Witness for the amended C8 at the both-flags service record. -/
theorem claim_C8_witness :
    CaltrainQuick.classifyService [("monday-and-saturday", ⟨true, true⟩)]
      "monday-and-saturday" = "weekday" :=
  claim_C8_amended.1 [("monday-and-saturday", ⟨true, true⟩)]
    "monday-and-saturday" ⟨true, true⟩ (by decide) rfl
